import Mathlib

/-!
Shallow embedding of `src/etl.py` (Google Sheets → PostgreSQL ETL) and
verification of its specification claims.

The program is a linear pipeline: read required configuration from the
process environment, extract a worksheet into a tabular record set, and
bulk-write it to a database table.  Pure helpers (`env`, `build_pg_url`,
the chunk-size parse) are embedded as Lean functions; the effectful parts
(`read_worksheet`, `load_dataframe`, `main`) are embedded as functions
returning an explicit list of `Effect`s together with their result, with
the responses of the external collaborators (JSON parser, spreadsheet
service) supplied by a `World` value.
-/

namespace Etl

/-- A row of the tabular record set: an ordered association of column name
to cell value, as produced by the worksheet client. -/
abbrev Record := List (String × String)

/-- The process environment: a partial map from variable name to value.
An unset variable is `none`; a variable set to the empty string is
`some ""`. -/
def Env := String → Option String

/-- The errors the script can raise (embedding of the `RuntimeError`s and
the JSON decode error of `etl.py`). -/
inductive EtlError where
  /-- `RuntimeError(f"Missing required environment variable: {key}")` -/
  | missingConfig (key : String)
  /-- `json.JSONDecodeError` from `json.loads(sa_json)` -/
  | credentialParse
  /-- any other `RuntimeError(msg)` -/
  | runtimeError (msg : String)
deriving DecidableEq, Repr

/-- Observable effects of a run, in program order. -/
inductive Effect where
  | logInfo (msg : String)
  | logWarning (msg : String)
  /-- `gspread.authorize(creds)` -/
  | sheetsAuth
  /-- `gc.open_by_key(sheet_id)` / `sh.worksheet(worksheet)` -/
  | sheetsOpen (sheetId : String) (worksheet : String)
  /-- `ws.get_all_records()` -/
  | sheetsFetch
  /-- first use of the (lazily created) SQLAlchemy engine -/
  | dbConnect (url : String)
  /-- `df.to_sql(table, engine, if_exists=…, chunksize=…)` -/
  | dbWrite (table : String) (ifExists : String) (rows : List Record)
      (chunksize : Option Nat)
deriving DecidableEq, Repr

/-- An effect that reaches the network (spreadsheet service or database). -/
def Effect.isNetwork : Effect → Bool
  | .logInfo _ => false
  | .logWarning _ => false
  | _ => true

/-- An effect that contacts the database. -/
def Effect.isDb : Effect → Bool
  | .dbConnect _ => true
  | .dbWrite _ _ _ _ => true
  | _ => false

/-- `os.getenv(key, default)`. -/
def getenv (e : Env) (key : String) (dflt : Option String) : Option String :=
  match e key with
  | some v => some v
  | none => dflt

/-- `env(key, default=None)` of `etl.py`: raise when `os.getenv` yields
`None`, otherwise return the value unchanged. -/
def env (e : Env) (key : String) (dflt : Option String) : Except EtlError String :=
  match getenv e key dflt with
  | some v => .ok v
  | none => .error (.missingConfig key)

/-- `build_pg_url` of `etl.py`: the f-string
`f"postgresql://{user}:{password}@{host}:{port}/{db}"`. -/
def build_pg_url (user : String) (password : String) (host : String)
    (port : String) (db : String) : String :=
  s!"postgresql://{user}:{password}@{host}:{port}/{db}"

/-- The configuration assembled by `main` from the environment. -/
structure Configuration where
  sheet_id : String
  worksheet : String
  sa_json : String
  pg_user : String
  pg_password : String
  pg_host : String
  pg_port : String
  pg_db : String
  pg_table : String
deriving DecidableEq, Repr

/-- The required environment variables, in the order `main` reads them. -/
def requiredKeys : List String :=
  ["SHEET_ID", "WORKSHEET", "GOOGLE_SA_KEY_JSON", "PG_USER", "PG_PASSWORD",
   "PG_HOST", "PG_PORT", "PG_DB", "PG_TABLE"]

/-- The configuration-loading prefix of `main` (`etl.py` lines 109–118):
nine `env` calls in order, each with no default. -/
def loadConfig (e : Env) : Except EtlError Configuration := do
  let sheet_id ← env e "SHEET_ID" none
  let worksheet ← env e "WORKSHEET" none
  let sa_json ← env e "GOOGLE_SA_KEY_JSON" none
  let pg_user ← env e "PG_USER" none
  let pg_password ← env e "PG_PASSWORD" none
  let pg_host ← env e "PG_HOST" none
  let pg_port ← env e "PG_PORT" none
  let pg_db ← env e "PG_DB" none
  let pg_table ← env e "PG_TABLE" none
  return ⟨sheet_id, worksheet, sa_json, pg_user, pg_password, pg_host,
          pg_port, pg_db, pg_table⟩

/-- Modelled from the spec: the responses of the external collaborators,
which are opaque dependencies of the repository.  `credsParse` records
whether `json.loads` accepts the credential blob; `rows` is the full cell
grid of the worksheet, first row the header. -/
structure World where
  credsParse : Bool
  rows : List (List String)

/-- Modelled from the spec: one record of `get_all_records` — the row is
keyed by the header, with rows shorter than the header padded with empty
strings. -/
def recordOf (header : List String) (row : List String) : Record :=
  header.zip (row ++ List.replicate (header.length - row.length) "")

/-- Modelled from the spec: `gspread`'s `ws.get_all_records()` — the first
row is the header (column names); each subsequent row becomes a record
keyed by those headers. -/
def getAllRecords : List (List String) → List Record
  | [] => []
  | header :: data => data.map (recordOf header)

/-- `read_worksheet` of `etl.py`: parse the credential blob, authenticate,
open the spreadsheet and worksheet, fetch all records, and warn when the
resulting frame is empty.  Returns the trace of effects together with the
record set (the `DataFrame` rows). -/
def read_worksheet (sheet_id : String) (worksheet : String) (sa_json : String)
    (w : World) : List Effect × Except EtlError (List Record) :=
  let authLog := Effect.logInfo
    "Authenticating to Google Sheets using inline service account JSON."
  if w.credsParse = false then
    ([authLog], .error .credentialParse)
  else
    let records := getAllRecords w.rows
    let fetchTrace := [authLog, Effect.sheetsAuth,
      Effect.logInfo "Opening spreadsheet.",
      Effect.sheetsOpen sheet_id worksheet,
      Effect.logInfo "Fetching records from worksheet.",
      Effect.sheetsFetch]
    if records.isEmpty then
      (fetchTrace ++ [Effect.logWarning "Worksheet is empty. Nothing to load."],
       .ok records)
    else
      (fetchTrace ++ [Effect.logInfo "Pulled rows."], .ok records)

/-- `get_engine` of `etl.py`: `create_engine` is lazy, so only a log
effect is produced; the engine is identified by its URL. -/
def get_engine (pg_url : String) : List Effect × String :=
  ([Effect.logInfo "Creating SQLAlchemy engine."], pg_url)

/-- `load_dataframe` of `etl.py`: skip (with a log) when the frame is
empty, otherwise connect and write the whole frame to the table. -/
def load_dataframe (df : List Record) (engine : String) (table : String)
    (if_exists : String) (chunksize : Option Nat) : List Effect :=
  if df.isEmpty then
    [Effect.logInfo "Skip loading: DataFrame is empty."]
  else
    [Effect.logInfo "Loading DataFrame.",
     Effect.dbConnect engine,
     Effect.dbWrite table if_exists df chunksize,
     Effect.logInfo "Load completed."]

/-- Modelled from the spec: Python's `int()` on a (nonnegative) decimal
string — surrounding whitespace is tolerated, anything else fails. -/
def pyInt (s : String) : Option Nat :=
  let t := ((s.data.dropWhile Char.isWhitespace).reverse.dropWhile
    Char.isWhitespace).reverse
  if !t.isEmpty && t.all Char.isDigit then
    some (t.foldl (fun acc c => acc * 10 + (c.toNat - 48)) 0)
  else none

/-- The chunk-size computation of `main` (`etl.py` lines 122–125):
`int(pg_chunksize_str) if pg_chunksize_str else None`, with a
`ValueError` mapped to the `RuntimeError` below. -/
def computeChunksize (s : String) : Except EtlError (Option Nat) :=
  if s = "" then .ok none
  else
    match pyInt s with
    | some n => .ok (some n)
    | none => .error (.runtimeError "PG_CHUNKSIZE must be an integer or empty.")

/-! ### The database write, refined to per-batch operations

`df.to_sql(table, engine, if_exists="replace", chunksize=n, method="multi")`
is a call into pandas/SQLAlchemy; the spec pins down its observable
behaviour: the table schema is inferred once from the whole frame, the
table is dropped and recreated under the replace policy, and the rows are
inserted in batches of `chunksize` rows per round-trip. -/

/-- An inferred column type: all-numeric columns become numeric, the rest
text. -/
inductive ColType where
  | num
  | text
deriving DecidableEq, Repr

/-- Cell value of column `c` in record `r` (missing cells read as empty). -/
def lookupCol (r : Record) (c : String) : String :=
  match r.find? (fun p => p.fst = c) with
  | some p => p.snd
  | none => ""

/-- A cell value that reads as numeric: nonempty, all digits. -/
def isNumericStr (s : String) : Bool :=
  !s.isEmpty && s.all Char.isDigit

/-- Modelled from the spec: the per-column type inference of the load
mechanism — a column whose observed value set is all numeric becomes
numeric, else text. -/
def inferColType (df : List Record) (c : String) : ColType :=
  if df.all (fun r => isNumericStr (lookupCol r c)) then .num else .text

/-- Modelled from the spec: the schema inferred from the whole record
set — the columns of the first record, each with its inferred type. -/
def inferSchema (df : List Record) : List (String × ColType) :=
  match df with
  | [] => []
  | r :: _ => (r.map Prod.fst).map (fun c => (c, inferColType df c))

/-- Split a list into consecutive batches of `n` elements (the last batch
may be shorter).  `n = 0` yields no batches. -/
def chunksOf (n : Nat) (l : List α) : List (List α) :=
  if l.isEmpty ∨ n = 0 then []
  else l.take n :: chunksOf n (l.drop n)
termination_by l.length
decreasing_by
  simp only [not_or, List.isEmpty_iff] at *
  have hl : l ≠ [] := by tauto
  have hn : n ≠ 0 := by tauto
  simp [List.length_drop]
  exact ⟨List.length_pos.mpr hl, Nat.pos_of_ne_zero hn⟩

/-- The batches `to_sql` sends: the whole frame at once when `chunksize`
is `None`, else batches of `chunksize` rows. -/
def toSqlBatches (df : List Record) (chunksize : Option Nat) : List (List Record) :=
  match chunksize with
  | none => [df]
  | some n => chunksOf n df

/-- A database operation issued by `to_sql`. -/
inductive DbOp where
  /-- create (or drop-and-recreate) `table` with the given schema -/
  | createTable (table : String) (schema : List (String × ColType))
  /-- one batched `INSERT` round-trip into `table` -/
  | insertRows (table : String) (rows : List Record)
deriving DecidableEq, Repr

/-- Modelled from the spec: the operation sequence of `to_sql` — under
`replace` (and `fail`/fresh-table policies) the table is created from the
schema inferred once from the whole frame, before the first batch; then
the batches are inserted in order.  Under `append` no create is issued. -/
def to_sql (df : List Record) (table : String) (if_exists : String)
    (chunksize : Option Nat) : List DbOp :=
  let inserts := (toSqlBatches df chunksize).map (DbOp.insertRows table)
  if if_exists = "append" then inserts
  else DbOp.createTable table (inferSchema df) :: inserts

/-- The database state: each table name maps to `none` (absent) or to its
schema and row contents. -/
def DbState := String → Option (List (String × ColType) × List Record)

/-- Apply one database operation to the database state. -/
def applyOp (s : DbState) : DbOp → DbState
  | .createTable t sch => fun x => if x = t then some (sch, []) else s x
  | .insertRows t rows => fun x =>
      if x = t then
        match s t with
        | some (sch, old) => some (sch, old ++ rows)
        | none => some ([], rows)
      else s x

/-- Apply a sequence of database operations in order. -/
def runOps (s : DbState) (ops : List DbOp) : DbState :=
  ops.foldl applyOp s

/-- The database operations an effect expands to (`dbWrite` expands to its
`to_sql` operation sequence; nothing else touches the database state). -/
def effectOps : Effect → List DbOp
  | .dbWrite t ifx rows cs => to_sql rows t ifx cs
  | _ => []

/-- Run the database operations of a whole effect trace. -/
def runEffects (s : DbState) (es : List Effect) : DbState :=
  runOps s ((es.map effectOps).flatten)

/-- `main` of `etl.py`: load the configuration, fix the hardcoded
existence policy and chunk size, extract, build the engine and load. -/
def main (e : Env) (w : World) : List Effect × Except EtlError Unit :=
  match loadConfig e with
  | .error err => ([], .error err)
  | .ok cfg =>
    let pg_if_exists := "replace"
    match computeChunksize "1000" with
    | .error err => ([], .error err)
    | .ok pg_chunksize =>
      match read_worksheet cfg.sheet_id cfg.worksheet cfg.sa_json w with
      | (extractTrace, .error err) => (extractTrace, .error err)
      | (extractTrace, .ok df) =>
        let engineUrl := build_pg_url cfg.pg_user cfg.pg_password cfg.pg_host
          cfg.pg_port cfg.pg_db
        match get_engine engineUrl with
        | (engTrace, engine) =>
          (extractTrace ++ engTrace ++
            load_dataframe df engine cfg.pg_table pg_if_exists pg_chunksize,
           .ok ())

/-! ### Concrete fixtures used by the witnesses -/

/-- The example record set of the spec: header `["id","name"]`, rows
`["1","Alice"]` and `["2","Bob"]`. -/
def dfEx : List Record :=
  [[("id", "1"), ("name", "Alice")], [("id", "2"), ("name", "Bob")]]

/-- An environment with every required variable set (to `"v" ++ key`). -/
def fullEnv : Env := fun k =>
  if k ∈ requiredKeys then some ("v" ++ k) else none

/-- An environment with every required variable set to the empty string. -/
def emptyValueEnv : Env := fun k =>
  if k ∈ requiredKeys then some "" else none

/-- An environment with no variable set at all. -/
def noEnv : Env := fun _ => none

/-- A world with parsable credentials and the spec's example worksheet. -/
def w0 : World := ⟨true, [["id", "name"], ["1", "Alice"], ["2", "Bob"]]⟩

/-- A world whose worksheet holds only the header row. -/
def wHeaderOnly : World := ⟨true, [["id", "name"]]⟩

/-- A world whose credential blob does not parse as JSON. -/
def wBadCreds : World := ⟨false, [["id", "name"], ["1", "Alice"]]⟩

/-- The empty database: no table exists. -/
def s0 : DbState := fun _ => none

/-! ### Helper lemmas -/

/-- The chunk-size literal of `main` parses to `1000`. -/
theorem computeChunksize_literal : computeChunksize "1000" = .ok (some 1000) := rfl

/-- `env` can only fail by naming its own key. -/
theorem env_error_names_key (e : Env) (k : String) (d : Option String)
    (err : EtlError) (h : env e k d = .error err) : err = .missingConfig k := by
  unfold env getenv at h
  cases he : e k with
  | some v => rw [he] at h; exact absurd h (by simp)
  | none =>
    rw [he] at h
    cases d with
    | some v => exact absurd h (by simp)
    | none => simpa using h.symm

/-- Unfolding lemma: running a nonempty operation list. -/
theorem runOps_cons (s : DbState) (op : DbOp) (ops : List DbOp) :
    runOps s (op :: ops) = runOps (applyOp s op) ops := rfl

/-- Flattening the batches of `chunksOf` recovers the original list
(induction on a length bound). -/
theorem chunksOf_flatten_aux (n : Nat) (hn : 0 < n) :
    ∀ (m : Nat) (l : List α), l.length ≤ m → (chunksOf n l).flatten = l := by
  intro m
  induction m with
  | zero =>
    intro l hl
    have hnil : l = [] := List.length_eq_zero.mp (Nat.le_zero.mp hl)
    rw [chunksOf]
    simp [hnil]
  | succ m ih =>
    intro l hl
    rw [chunksOf]
    by_cases he : l.isEmpty ∨ n = 0
    · rcases he with he | he
      · have hnil : l = [] := List.isEmpty_iff.mp he
        simp [he, hnil]
      · exact absurd he (by omega)
    · rw [if_neg he, List.flatten_cons]
      have hne : l ≠ [] := by
        intro hnil
        exact he (Or.inl (by simp [hnil]))
      have hlen : (l.drop n).length ≤ m := by
        have hpos : 0 < l.length := List.length_pos.mpr hne
        simp [List.length_drop]
        omega
      rw [ih (l.drop n) hlen, List.take_append_drop]

/-- Flattening the batches of `chunksOf` recovers the original list. -/
theorem chunksOf_flatten (n : Nat) (hn : 0 < n) (l : List α) :
    (chunksOf n l).flatten = l :=
  chunksOf_flatten_aux n hn l.length l le_rfl

/-- Inserting a sequence of batches into an existing table appends their
concatenation to its contents. -/
theorem runOps_insert_batches (t : String) (sch : List (String × ColType)) :
    ∀ (batches : List (List Record)) (s : DbState) (rows : List Record),
      s t = some (sch, rows) →
      runOps s (batches.map (DbOp.insertRows t)) t
        = some (sch, rows ++ batches.flatten) := by
  intro batches
  induction batches with
  | nil => intro s rows hs; simpa [runOps] using hs
  | cons b bs ih =>
    intro s rows hs
    rw [List.map_cons, runOps_cons]
    have h1 : (applyOp s (DbOp.insertRows t b)) t = some (sch, rows ++ b) := by
      simp [applyOp, hs]
    rw [ih _ _ h1, List.flatten_cons, List.append_assoc]

/-- Under the replace policy, `to_sql` leaves the target table holding the
schema inferred from the whole frame and the concatenation of the
batches. -/
theorem runOps_to_sql_replace (df : List Record) (t : String) (cs : Option Nat)
    (s : DbState) :
    runOps s (to_sql df t "replace" cs) t
      = some (inferSchema df, (toSqlBatches df cs).flatten) := by
  unfold to_sql
  rw [if_neg (by decide : ¬(("replace" : String) = "append"))]
  rw [runOps_cons]
  exact runOps_insert_batches t (inferSchema df) (toSqlBatches df cs)
    (applyOp s (DbOp.createTable t (inferSchema df))) []
    (by simp [applyOp])

/-- The table a database operation touches. -/
def DbOp.target : DbOp → String
  | .createTable t _ => t
  | .insertRows t _ => t

/-- A database operation leaves every other table unchanged. -/
theorem applyOp_frame (s : DbState) (op : DbOp) (x : String)
    (h : x ≠ op.target) : applyOp s op x = s x := by
  cases op with
  | createTable t sch =>
    simp only [DbOp.target] at h
    simp [applyOp, h]
  | insertRows t rows =>
    simp only [DbOp.target] at h
    simp [applyOp, h]

/-- A sequence of operations away from `x` leaves table `x` unchanged. -/
theorem runOps_frame : ∀ (ops : List DbOp) (s : DbState) (x : String),
    (∀ op ∈ ops, x ≠ op.target) → runOps s ops x = s x := by
  intro ops
  induction ops with
  | nil => intro s x h; rfl
  | cons op ops ih =>
    intro s x h
    rw [runOps_cons, ih _ _ (fun o ho => h o (List.mem_cons_of_mem _ ho)),
        applyOp_frame _ _ _ (h op (List.mem_cons_self _ _))]

/-- Every operation `to_sql` issues targets its own table. -/
theorem to_sql_target (df : List Record) (t : String) (ifx : String)
    (cs : Option Nat) : ∀ op ∈ to_sql df t ifx cs, op.target = t := by
  intro op hop
  unfold to_sql at hop
  by_cases h : ifx = "append" <;> simp [h] at hop
  · obtain ⟨b, _, rfl⟩ := hop
    rfl
  · rcases hop with rfl | ⟨b, _, rfl⟩ <;> rfl

/-- `read_worksheet` can only fail with the credential-parse error. -/
theorem read_worksheet_error (sid wsn sj : String) (w : World) (err : EtlError)
    (h : (read_worksheet sid wsn sj w).2 = .error err) : err = .credentialParse := by
  unfold read_worksheet at h
  cases hc : w.credsParse with
  | false => simp [hc] at h; exact h.symm
  | true =>
    simp only [hc] at h
    by_cases hrec : (getAllRecords w.rows).isEmpty <;> simp [hrec] at h

/-- A failing `Except` bind: the error comes from the first action or,
after a success, from the continuation. -/
theorem bind_error {α β : Type} {x : Except EtlError α}
    {f : α → Except EtlError β} {err : EtlError}
    (h : (x >>= f) = .error err) :
    x = .error err ∨ ∃ a, x = .ok a ∧ f a = .error err := by
  cases x with
  | error e2 =>
    simp only [Bind.bind, Except.bind] at h
    exact Or.inl (by simp_all)
  | ok a =>
    exact Or.inr ⟨a, rfl, by simpa [Bind.bind, Except.bind] using h⟩

/-- `loadConfig` can only fail by naming a missing required key. -/
theorem loadConfig_error (e : Env) (err : EtlError)
    (h : loadConfig e = .error err) :
    ∃ k, k ∈ requiredKeys ∧ err = .missingConfig k := by
  unfold loadConfig at h
  rcases bind_error h with h | ⟨v1, h1, h⟩
  · exact ⟨"SHEET_ID", by simp [requiredKeys], env_error_names_key _ _ _ _ h⟩
  rcases bind_error h with h | ⟨v2, h2, h⟩
  · exact ⟨"WORKSHEET", by simp [requiredKeys], env_error_names_key _ _ _ _ h⟩
  rcases bind_error h with h | ⟨v3, h3, h⟩
  · exact ⟨"GOOGLE_SA_KEY_JSON", by simp [requiredKeys],
      env_error_names_key _ _ _ _ h⟩
  rcases bind_error h with h | ⟨v4, h4, h⟩
  · exact ⟨"PG_USER", by simp [requiredKeys], env_error_names_key _ _ _ _ h⟩
  rcases bind_error h with h | ⟨v5, h5, h⟩
  · exact ⟨"PG_PASSWORD", by simp [requiredKeys], env_error_names_key _ _ _ _ h⟩
  rcases bind_error h with h | ⟨v6, h6, h⟩
  · exact ⟨"PG_HOST", by simp [requiredKeys], env_error_names_key _ _ _ _ h⟩
  rcases bind_error h with h | ⟨v7, h7, h⟩
  · exact ⟨"PG_PORT", by simp [requiredKeys], env_error_names_key _ _ _ _ h⟩
  rcases bind_error h with h | ⟨v8, h8, h⟩
  · exact ⟨"PG_DB", by simp [requiredKeys], env_error_names_key _ _ _ _ h⟩
  rcases bind_error h with h | ⟨v9, h9, h⟩
  · exact ⟨"PG_TABLE", by simp [requiredKeys], env_error_names_key _ _ _ _ h⟩
  simp [Pure.pure, Except.pure] at h

/-! ### The claims -/

/-- C10: `build_pg_url` returns exactly
`"postgresql://" ++ user ++ ":" ++ password ++ "@" ++ host ++ ":" ++ port
++ "/" ++ db`, every field inserted verbatim with no escaping — so a
password holding URL-significant characters is embedded unescaped. -/
theorem build_pg_url_verbatim :
    (∀ user password host port db : String,
      build_pg_url user password host port db =
        "postgresql://" ++ user ++ ":" ++ password ++ "@" ++ host ++ ":" ++
          port ++ "/" ++ db)
  ∧ build_pg_url "u" "p@ss:w/d" "h" "5432" "mydb" =
      "postgresql://u:p@ss:w/d@h:5432/mydb" := by
  constructor
  · intro u p h po d
    apply String.ext
    simp [build_pg_url, String.data_append, toString]
  · rfl

/-- C2: with the first worksheet row as header, extraction yields one
record per data row, keyed by the header names with the cell values
preserved; on the spec's example it yields exactly the two expected
records. -/
theorem extract_records_keyed_by_header :
    (∀ (header : List String) (data : List (List String)),
        (getAllRecords (header :: data)).length = data.length)
  ∧ (∀ header row : List String, row.length = header.length →
        (recordOf header row).map Prod.fst = header
      ∧ (recordOf header row).map Prod.snd = row)
  ∧ (read_worksheet "sheet" "ws" "sa"
        ⟨true, [["id", "name"], ["1", "Alice"], ["2", "Bob"]]⟩).2 =
      .ok [[("id", "1"), ("name", "Alice")], [("id", "2"), ("name", "Bob")]] := by
  refine ⟨?_, ?_, ?_⟩
  · intro header data
    simp [getAllRecords]
  · intro header row hlen
    have hpad : row ++ List.replicate (header.length - row.length) "" = row := by
      simp [hlen]
    constructor
    · rw [recordOf, hpad]
      exact List.map_fst_zip header row hlen.ge
    · rw [recordOf, hpad]
      exact List.map_snd_zip header row hlen.le
  · rfl

/-- Witness for C2 at the spec's example header and first data row. -/
theorem extract_records_keyed_by_header_witness :
    (["1", "Alice"] : List String).length = (["id", "name"] : List String).length
  ∧ (recordOf ["id", "name"] ["1", "Alice"]).map Prod.fst = ["id", "name"]
  ∧ (recordOf ["id", "name"] ["1", "Alice"]).map Prod.snd = ["1", "Alice"] :=
  ⟨by decide,
   (extract_records_keyed_by_header.2.1 ["id", "name"] ["1", "Alice"] (by decide)).1,
   (extract_records_keyed_by_header.2.1 ["id", "name"] ["1", "Alice"] (by decide)).2⟩

/-- C6: a worksheet holding only its header row extracts to the empty
record set with a logged warning, not an error. -/
theorem header_only_worksheet_empty_warning :
    ∀ (sid wsn sj : String) (w : World) (header : List String),
      w.credsParse = true → w.rows = [header] →
      (read_worksheet sid wsn sj w).2 = .ok []
    ∧ Effect.logWarning "Worksheet is empty. Nothing to load."
        ∈ (read_worksheet sid wsn sj w).1 := by
  intro sid wsn sj w header hc hr
  constructor <;> simp [read_worksheet, hc, hr, getAllRecords]

/-- Witness for C6 at a concrete header-only worksheet. -/
theorem header_only_worksheet_empty_warning_witness :
    (read_worksheet "s" "w" "sa" wHeaderOnly).2 = .ok []
  ∧ Effect.logWarning "Worksheet is empty. Nothing to load."
      ∈ (read_worksheet "s" "w" "sa" wHeaderOnly).1 :=
  header_only_worksheet_empty_warning "s" "w" "sa" wHeaderOnly
    ["id", "name"] rfl rfl

/-- C5: a credential blob that does not parse as JSON makes extraction
fail with the credential-parse error, with no network effect to the
spreadsheet service or the database — neither in `read_worksheet` itself
nor anywhere in a `main` run. -/
theorem malformed_credentials_fail_before_network :
    ∀ (sid wsn sj : String) (w : World), w.credsParse = false →
      (read_worksheet sid wsn sj w).2 = .error .credentialParse
    ∧ (read_worksheet sid wsn sj w).1.filter Effect.isNetwork = []
    ∧ ∀ e : Env, (main e w).1.filter Effect.isNetwork = []
    ∧ (main e w).2 ≠ .ok () := by
  intro sid wsn sj w hc
  have hrw : ∀ a b c : String, read_worksheet a b c w =
      ([Effect.logInfo
          "Authenticating to Google Sheets using inline service account JSON."],
       .error .credentialParse) := by
    intro a b c
    simp [read_worksheet, hc]
  refine ⟨by rw [hrw], by rw [hrw]; rfl, ?_⟩
  intro e
  cases hcfg : loadConfig e with
  | error err =>
    exact ⟨by simp [main, hcfg], by simp [main, hcfg]⟩
  | ok cfg =>
    constructor
    · simp [main, hcfg, computeChunksize_literal, hrw, Effect.isNetwork]
    · simp [main, hcfg, computeChunksize_literal, hrw]

/-- Witness for C5 at a concrete malformed-credential world. -/
theorem malformed_credentials_fail_before_network_witness :
    (read_worksheet "s" "w" "sa" wBadCreds).2 = .error .credentialParse
  ∧ (read_worksheet "s" "w" "sa" wBadCreds).1.filter Effect.isNetwork = []
  ∧ (main fullEnv wBadCreds).1.filter Effect.isNetwork = []
  ∧ (main fullEnv wBadCreds).2 ≠ .ok () :=
  ⟨(malformed_credentials_fail_before_network "s" "w" "sa" wBadCreds rfl).1,
   (malformed_credentials_fail_before_network "s" "w" "sa" wBadCreds rfl).2.1,
   (malformed_credentials_fail_before_network "s" "w" "sa" wBadCreds rfl).2.2 fullEnv⟩

/-- Running no operations leaves the database unchanged. -/
theorem runOps_nil (s : DbState) : runOps s [] = s := rfl

/-- C3: loading an empty record set is an explicit logged no-op — no
database effect is issued and the database state is unchanged, both for
`load_dataframe` itself and for a whole `main` run whose worksheet
yields no records. -/
theorem load_empty_records_noop :
    (∀ (engine table ifx : String) (cs : Option Nat),
        load_dataframe [] engine table ifx cs
          = [Effect.logInfo "Skip loading: DataFrame is empty."])
  ∧ (∀ (df : List Record) (engine table ifx : String) (cs : Option Nat)
        (s : DbState), df = [] →
        (load_dataframe df engine table ifx cs).filter Effect.isDb = []
      ∧ runEffects s (load_dataframe df engine table ifx cs) = s)
  ∧ (∀ (e : Env) (w : World) (s : DbState), getAllRecords w.rows = [] →
        (main e w).1.filter Effect.isDb = []
      ∧ runEffects s (main e w).1 = s) := by
  refine ⟨?_, ?_, ?_⟩
  · intro engine table ifx cs
    rfl
  · intro df engine table ifx cs s hdf
    subst hdf
    exact ⟨rfl, rfl⟩
  · intro e w s hrec
    cases hcfg : loadConfig e with
    | error err =>
      constructor <;> simp [main, hcfg, runEffects, runOps]
    | ok cfg =>
      cases hc : w.credsParse with
      | false =>
        constructor <;>
          simp [main, hcfg, computeChunksize_literal, read_worksheet, hc,
            Effect.isDb, runEffects, effectOps, runOps]
      | true =>
        constructor <;>
          simp [main, hcfg, computeChunksize_literal, read_worksheet, hc, hrec,
            get_engine, load_dataframe, Effect.isDb, runEffects, effectOps,
            runOps]

/-- Witness for C3 at the empty record set and a header-only worksheet. -/
theorem load_empty_records_noop_witness :
    ([] : List Record) = []
  ∧ (load_dataframe [] "url" "tbl" "replace" (some 1000)).filter Effect.isDb = []
  ∧ runEffects s0 (load_dataframe [] "url" "tbl" "replace" (some 1000)) = s0
  ∧ getAllRecords wHeaderOnly.rows = []
  ∧ (main fullEnv wHeaderOnly).1.filter Effect.isDb = []
  ∧ runEffects s0 (main fullEnv wHeaderOnly).1 = s0 :=
  ⟨rfl,
   (load_empty_records_noop.2.1 [] "url" "tbl" "replace" (some 1000) s0 rfl).1,
   (load_empty_records_noop.2.1 [] "url" "tbl" "replace" (some 1000) s0 rfl).2,
   rfl,
   (load_empty_records_noop.2.2 fullEnv wHeaderOnly s0 rfl).1,
   (load_empty_records_noop.2.2 fullEnv wHeaderOnly s0 rfl).2⟩

/-- C4: every database write a `main` run issues carries the hardcoded
existence policy `"replace"` and chunk size `1000`, whatever the
environment holds. -/
theorem main_hardcodes_replace_and_chunksize :
    ∀ (e : Env) (w : World) (t ifx : String) (rows : List Record)
      (cs : Option Nat),
      Effect.dbWrite t ifx rows cs ∈ (main e w).1 →
      ifx = "replace" ∧ cs = some 1000 := by
  intro e w t ifx rows cs hmem
  cases hcfg : loadConfig e with
  | error err => simp [main, hcfg] at hmem
  | ok cfg =>
    cases hc : w.credsParse with
    | false =>
      simp [main, hcfg, computeChunksize_literal, read_worksheet, hc] at hmem
    | true =>
      by_cases hrec : (getAllRecords w.rows).isEmpty
      · simp [main, hcfg, computeChunksize_literal, read_worksheet, hc, hrec,
          get_engine, load_dataframe] at hmem
      · simp [main, hcfg, computeChunksize_literal, read_worksheet, hc, hrec,
          get_engine, load_dataframe] at hmem
        obtain ⟨h1, h2, h3, h4⟩ := hmem
        exact ⟨h2, h4⟩

/-- Witness for C4 at a fully populated environment and the example
worksheet. -/
theorem main_hardcodes_replace_and_chunksize_witness :
    Effect.dbWrite "vPG_TABLE" "replace" dfEx (some 1000) ∈ (main fullEnv w0).1
  ∧ (("replace" : String) = "replace" ∧ (some 1000 : Option Nat) = some 1000) := by
  have hm : Effect.dbWrite "vPG_TABLE" "replace" dfEx (some 1000)
      ∈ (main fullEnv w0).1 := by decide
  exact ⟨hm, main_hardcodes_replace_and_chunksize fullEnv w0 "vPG_TABLE"
    "replace" dfEx (some 1000) hm⟩

/-- C9: the chunk-size string is the literal `"1000"`, so its parse
always succeeds with `1000` and the `RuntimeError` branch of `main` is
unreachable. -/
theorem chunksize_parse_branch_unreachable :
    computeChunksize "1000" = .ok (some 1000)
  ∧ ∀ (e : Env) (w : World),
      (main e w).2
        ≠ .error (.runtimeError "PG_CHUNKSIZE must be an integer or empty.") := by
  refine ⟨computeChunksize_literal, ?_⟩
  intro e w hbad
  cases hcfg : loadConfig e with
  | error err =>
    have h2 : (main e w).2 = .error err := by simp [main, hcfg]
    rw [h2] at hbad
    obtain ⟨k, _, hk⟩ := loadConfig_error e err hcfg
    simp [hk] at hbad
  | ok cfg =>
    cases hrw : read_worksheet cfg.sheet_id cfg.worksheet cfg.sa_json w with
    | mk trace res =>
      cases res with
      | error err2 =>
        have h2 : (main e w).2 = .error err2 := by
          simp [main, hcfg, computeChunksize_literal, hrw]
        have herr : err2 = .credentialParse :=
          read_worksheet_error cfg.sheet_id cfg.worksheet cfg.sa_json w err2
            (by rw [hrw])
        rw [h2, herr] at hbad
        simp at hbad
      | ok df =>
        have h2 : (main e w).2 = .ok () := by
          simp [main, hcfg, computeChunksize_literal, hrw]
        rw [h2] at hbad
        simp at hbad

/-- Witness for C9 at a fully populated environment and the example
worksheet. -/
theorem chunksize_parse_branch_unreachable_witness :
    computeChunksize "1000" = .ok (some 1000)
  ∧ (main fullEnv w0).2
      ≠ .error (.runtimeError "PG_CHUNKSIZE must be an integer or empty.") :=
  ⟨chunksize_parse_branch_unreachable.1,
   chunksize_parse_branch_unreachable.2 fullEnv w0⟩

/-- C7: for a non-empty record set and any two positive batch sizes, the
final target-table contents after the write are identical — the table
holds exactly the input rows under the schema inferred once from the
whole record set, whatever the batch size. -/
theorem chunksize_does_not_affect_result :
    ∀ (df : List Record) (table : String) (s : DbState) (n₁ n₂ : Nat),
      df ≠ [] → 0 < n₁ → 0 < n₂ →
      runOps s (to_sql df table "replace" (some n₁)) table
        = runOps s (to_sql df table "replace" (some n₂)) table
    ∧ runOps s (to_sql df table "replace" (some n₁)) table
        = some (inferSchema df, df) := by
  intro df table s n₁ n₂ hdf h1 h2
  rw [runOps_to_sql_replace df table (some n₁) s,
      runOps_to_sql_replace df table (some n₂) s]
  simp [toSqlBatches, chunksOf_flatten n₁ h1, chunksOf_flatten n₂ h2]

/-- Witness for C7: the example record set, batch sizes 1 and 2. -/
theorem chunksize_does_not_affect_result_witness :
    dfEx ≠ [] ∧ 0 < 1 ∧ 0 < 2
  ∧ runOps s0 (to_sql dfEx "tbl" "replace" (some 1)) "tbl"
      = runOps s0 (to_sql dfEx "tbl" "replace" (some 2)) "tbl"
  ∧ runOps s0 (to_sql dfEx "tbl" "replace" (some 1)) "tbl"
      = some (inferSchema dfEx, dfEx) :=
  ⟨by decide, by decide, by decide,
   (chunksize_does_not_affect_result dfEx "tbl" s0 1 2 (by decide)
     (by decide) (by decide)).1,
   (chunksize_does_not_affect_result dfEx "tbl" s0 1 2 (by decide)
     (by decide) (by decide)).2⟩

/-- C8: the records `load_dataframe` passes to the database write are the
input record set unchanged, every write targets the single destination
table, and every other table of the database is untouched by the run. -/
theorem load_does_not_mutate_records :
    ∀ (df : List Record) (engine table ifx : String) (cs : Option Nat)
      (s : DbState) (x : String),
      (∀ (t2 ifx2 : String) (rows2 : List Record) (cs2 : Option Nat),
          Effect.dbWrite t2 ifx2 rows2 cs2
            ∈ load_dataframe df engine table ifx cs →
          t2 = table ∧ rows2 = df)
    ∧ (x ≠ table →
        runEffects s (load_dataframe df engine table ifx cs) x = s x) := by
  intro df engine table ifx cs s x
  by_cases hdf : df.isEmpty
  · constructor
    · intro t2 ifx2 rows2 cs2 hmem
      simp [load_dataframe, hdf] at hmem
    · intro hx
      simp [load_dataframe, hdf, runEffects, effectOps, runOps]
  · constructor
    · intro t2 ifx2 rows2 cs2 hmem
      simp [load_dataframe, hdf] at hmem
      obtain ⟨ht, hifx, hrows, hcs⟩ := hmem
      exact ⟨ht, hrows⟩
    · intro hx
      have hrun : runEffects s (load_dataframe df engine table ifx cs)
          = runOps s (to_sql df table ifx cs) := by
        simp [load_dataframe, hdf, runEffects, effectOps]
      rw [hrun]
      exact runOps_frame _ _ _ (fun op hop => by
        rw [to_sql_target df table ifx cs op hop]
        exact hx)

/-- Witness for C8: the example record set written to `"tbl"`, observed
at the distinct table `"other"`. -/
theorem load_does_not_mutate_records_witness :
    ("other" : String) ≠ "tbl"
  ∧ runEffects s0 (load_dataframe dfEx "url" "tbl" "replace" (some 1000))
      "other" = s0 "other"
  ∧ (("tbl" : String) = "tbl" ∧ dfEx = dfEx) := by
  have hm : Effect.dbWrite "tbl" "replace" dfEx (some 1000)
      ∈ load_dataframe dfEx "url" "tbl" "replace" (some 1000) := by decide
  refine ⟨by decide, ?_, ?_⟩
  · exact (load_does_not_mutate_records dfEx "url" "tbl" "replace"
      (some 1000) s0 "other").2 (by decide)
  · exact (load_does_not_mutate_records dfEx "url" "tbl" "replace"
      (some 1000) s0 "other").1 "tbl" "replace" dfEx (some 1000) hm

/-- C1 counterexample: with every required variable set to the empty
string the claim demands a `MissingConfiguration` failure, but `env`
accepts the empty value and configuration loading succeeds, returning the
empty strings. -/
theorem loadConfig_accepts_empty_values :
    env emptyValueEnv "SHEET_ID" none = .ok ""
  ∧ loadConfig emptyValueEnv = .ok ⟨"", "", "", "", "", "", "", "", ""⟩ := by
  constructor <;> rfl

/-- C1 (amended): if every required key is set — even to the empty
string — `loadConfig` succeeds with each Configuration field exactly the
environment value; if some required key is unset, `loadConfig` fails with
`MissingConfiguration` naming the first unset key in load order, and the
`main` run produces no effect at all (in particular no network call). -/
theorem loadConfig_exact_env_values (e : Env) :
    ((requiredKeys.all fun k => (e k).isSome) = true →
      loadConfig e = .ok ⟨(e "SHEET_ID").getD "", (e "WORKSHEET").getD "",
        (e "GOOGLE_SA_KEY_JSON").getD "", (e "PG_USER").getD "",
        (e "PG_PASSWORD").getD "", (e "PG_HOST").getD "",
        (e "PG_PORT").getD "", (e "PG_DB").getD "", (e "PG_TABLE").getD ""⟩)
  ∧ (∀ k, requiredKeys.find? (fun j => (e j).isNone) = some k →
      e k = none
    ∧ loadConfig e = .error (.missingConfig k)
    ∧ ∀ w, main e w = ([], .error (.missingConfig k))) := by
  constructor
  · intro hall
    simp only [requiredKeys, List.all_cons, List.all_nil, Bool.and_true,
      Bool.and_eq_true, Option.isSome_iff_exists] at hall
    obtain ⟨⟨v1, h1⟩, ⟨v2, h2⟩, ⟨v3, h3⟩, ⟨v4, h4⟩, ⟨v5, h5⟩, ⟨v6, h6⟩,
      ⟨v7, h7⟩, ⟨v8, h8⟩, ⟨v9, h9⟩⟩ := hall
    simp [loadConfig, env, getenv, h1, h2, h3, h4, h5, h6, h7, h8, h9,
      Bind.bind, Except.bind, Pure.pure, Except.pure]
  · intro k hk
    cases h1 : e "SHEET_ID" with
    | none =>
      simp only [requiredKeys, List.find?, h1, Option.isNone_none] at hk
      obtain rfl : k = "SHEET_ID" := by simpa using hk.symm
      have hcfg : loadConfig e = .error (.missingConfig "SHEET_ID") := by
        simp [loadConfig, env, getenv, h1, Bind.bind, Except.bind]
      exact ⟨h1, hcfg, fun w => by simp [main, hcfg]⟩
    | some v1 =>
      cases h2 : e "WORKSHEET" with
      | none =>
        simp only [requiredKeys, List.find?, h1, h2] at hk
        obtain rfl : k = "WORKSHEET" := by simpa using hk.symm
        have hcfg : loadConfig e = .error (.missingConfig "WORKSHEET") := by
          simp [loadConfig, env, getenv, h1, h2, Bind.bind, Except.bind]
        exact ⟨h2, hcfg, fun w => by simp [main, hcfg]⟩
      | some v2 =>
        cases h3 : e "GOOGLE_SA_KEY_JSON" with
        | none =>
          simp only [requiredKeys, List.find?, h1, h2, h3] at hk
          obtain rfl : k = "GOOGLE_SA_KEY_JSON" := by simpa using hk.symm
          have hcfg : loadConfig e = .error (.missingConfig "GOOGLE_SA_KEY_JSON") := by
            simp [loadConfig, env, getenv, h1, h2, h3, Bind.bind, Except.bind]
          exact ⟨h3, hcfg, fun w => by simp [main, hcfg]⟩
        | some v3 =>
          cases h4 : e "PG_USER" with
          | none =>
            simp only [requiredKeys, List.find?, h1, h2, h3, h4] at hk
            obtain rfl : k = "PG_USER" := by simpa using hk.symm
            have hcfg : loadConfig e = .error (.missingConfig "PG_USER") := by
              simp [loadConfig, env, getenv, h1, h2, h3, h4,
                Bind.bind, Except.bind]
            exact ⟨h4, hcfg, fun w => by simp [main, hcfg]⟩
          | some v4 =>
            cases h5 : e "PG_PASSWORD" with
            | none =>
              simp only [requiredKeys, List.find?, h1, h2, h3, h4, h5] at hk
              obtain rfl : k = "PG_PASSWORD" := by simpa using hk.symm
              have hcfg : loadConfig e = .error (.missingConfig "PG_PASSWORD") := by
                simp [loadConfig, env, getenv, h1, h2, h3, h4, h5,
                  Bind.bind, Except.bind]
              exact ⟨h5, hcfg, fun w => by simp [main, hcfg]⟩
            | some v5 =>
              cases h6 : e "PG_HOST" with
              | none =>
                simp only [requiredKeys, List.find?, h1, h2, h3, h4, h5, h6] at hk
                obtain rfl : k = "PG_HOST" := by simpa using hk.symm
                have hcfg : loadConfig e = .error (.missingConfig "PG_HOST") := by
                  simp [loadConfig, env, getenv, h1, h2, h3, h4, h5, h6,
                    Bind.bind, Except.bind]
                exact ⟨h6, hcfg, fun w => by simp [main, hcfg]⟩
              | some v6 =>
                cases h7 : e "PG_PORT" with
                | none =>
                  simp only [requiredKeys, List.find?, h1, h2, h3, h4, h5, h6,
                    h7] at hk
                  obtain rfl : k = "PG_PORT" := by simpa using hk.symm
                  have hcfg : loadConfig e = .error (.missingConfig "PG_PORT") := by
                    simp [loadConfig, env, getenv, h1, h2, h3, h4, h5, h6, h7,
                      Bind.bind, Except.bind]
                  exact ⟨h7, hcfg, fun w => by simp [main, hcfg]⟩
                | some v7 =>
                  cases h8 : e "PG_DB" with
                  | none =>
                    simp only [requiredKeys, List.find?, h1, h2, h3, h4, h5,
                      h6, h7, h8] at hk
                    obtain rfl : k = "PG_DB" := by simpa using hk.symm
                    have hcfg : loadConfig e = .error (.missingConfig "PG_DB") := by
                      simp [loadConfig, env, getenv, h1, h2, h3, h4, h5, h6,
                        h7, h8, Bind.bind, Except.bind]
                    exact ⟨h8, hcfg, fun w => by simp [main, hcfg]⟩
                  | some v8 =>
                    cases h9 : e "PG_TABLE" with
                    | none =>
                      simp only [requiredKeys, List.find?, h1, h2, h3, h4, h5,
                        h6, h7, h8, h9] at hk
                      obtain rfl : k = "PG_TABLE" := by simpa using hk.symm
                      have hcfg : loadConfig e = .error (.missingConfig "PG_TABLE") := by
                        simp [loadConfig, env, getenv, h1, h2, h3, h4, h5, h6,
                          h7, h8, h9, Bind.bind, Except.bind]
                      exact ⟨h9, hcfg, fun w => by simp [main, hcfg]⟩
                    | some v9 =>
                      simp [requiredKeys, List.find?, h1, h2, h3, h4, h5, h6,
                        h7, h8, h9] at hk

/-- Witness for C1: the fully populated environment succeeds with the
exact values; the empty environment fails naming `SHEET_ID` with no
effect. -/
theorem loadConfig_exact_env_values_witness :
    (requiredKeys.all fun k => (fullEnv k).isSome) = true
  ∧ loadConfig fullEnv = .ok ⟨"vSHEET_ID", "vWORKSHEET", "vGOOGLE_SA_KEY_JSON",
      "vPG_USER", "vPG_PASSWORD", "vPG_HOST", "vPG_PORT", "vPG_DB", "vPG_TABLE"⟩
  ∧ requiredKeys.find? (fun j => (noEnv j).isNone) = some "SHEET_ID"
  ∧ noEnv "SHEET_ID" = none
  ∧ loadConfig noEnv = .error (.missingConfig "SHEET_ID")
  ∧ main noEnv w0 = ([], .error (.missingConfig "SHEET_ID")) := by
  refine ⟨by decide, ?_, by decide, ?_, ?_, ?_⟩
  · exact ((loadConfig_exact_env_values fullEnv).1 (by decide)).trans rfl
  · exact ((loadConfig_exact_env_values noEnv).2 "SHEET_ID" (by decide)).1
  · exact ((loadConfig_exact_env_values noEnv).2 "SHEET_ID" (by decide)).2.1
  · exact ((loadConfig_exact_env_values noEnv).2 "SHEET_ID" (by decide)).2.2 w0

end Etl
